import Mathlib

/-!
Shallow embedding of the news-bot pipeline in `Bot.py`: key derivation,
the dedup store, the content filter, the rewrite gateway, the image
resolution fallback chain, the RSS polling loop, the chat message handler
and the manual `news` command workflow.

Python strings are modelled as Lean `String`s; the Python string methods
used by the program (`strip`, `lower`, `split`, `splitlines`, slicing,
`in`, `startswith`, `endswith`) are modelled character-wise below.
External collaborators (the Discord transport, the HTML parser, the hash
function, the HTTP client) are modelled as explicit outcome values or
function parameters; the control flow around them is translated from the
source.
-/

namespace Bot

/-- Python whitespace test used by `strip` and `split` (ASCII fragment;
the program's data never relies on exotic Unicode whitespace). -/
def wsp (c : Char) : Bool := c.isWhitespace

/-- Drop trailing characters satisfying `wsp` (the right half of Python
`str.strip()`). -/
def dropTrailing : List Char → List Char
  | [] => []
  | c :: rest =>
    if (dropTrailing rest).isEmpty && wsp c then [] else c :: dropTrailing rest

/-- Python `s.strip()`: remove leading and trailing whitespace. -/
def pyStrip (s : String) : String :=
  String.mk (dropTrailing (s.toList.dropWhile wsp))

/-- Python `str.lower()` on the alphabets this program uses
(ASCII A-Z and Cyrillic А-Я/Ё). -/
def pyLowerChar (c : Char) : Char :=
  if 65 ≤ c.toNat ∧ c.toNat ≤ 90 then Char.ofNat (c.toNat + 32)
  else if 1040 ≤ c.toNat ∧ c.toNat ≤ 1071 then Char.ofNat (c.toNat + 32)
  else if c.toNat = 1025 then Char.ofNat 1105
  else c

/-- Python `s.lower()`. -/
def pyLower (s : String) : String := String.mk (s.toList.map pyLowerChar)

/-- `leadsWith n h`: the list `n` is an initial segment of `h`. -/
def leadsWith : List Char → List Char → Bool
  | [], _ => true
  | _ :: _, [] => false
  | a :: as, b :: bs => a == b && leadsWith as bs

/-- Occurrence of `needle` somewhere inside the haystack. -/
def occursInL (needle : List Char) : List Char → Bool
  | [] => needle.isEmpty
  | c :: rest => leadsWith needle (c :: rest) || occursInL needle rest

/-- Python `needle in hay` on strings (substring containment). -/
def pyIn (needle hay : String) : Bool := occursInL needle.toList hay.toList

/-- Python `s.endswith(suf)`. -/
def trailsWith (suf s : String) : Bool :=
  leadsWith suf.toList.reverse s.toList.reverse

/-- Python `s[:n]` (slicing counts characters). -/
def pyTake (s : String) (n : Nat) : String := String.mk (s.toList.take n)

/-- Python `len(s)` (counts characters). -/
def pyLen (s : String) : Nat := s.toList.length

/-- Helper for `len(s.split())`: count maximal non-whitespace runs; the
Boolean records whether we are inside a run. -/
def wordCountAux : List Char → Bool → Nat
  | [], _ => 0
  | c :: rest, inw =>
    if wsp c then wordCountAux rest false
    else (if inw then 0 else 1) + wordCountAux rest true

/-- Python `len(s.split())`: number of whitespace-delimited tokens. -/
def pyWordCount (s : String) : Nat := wordCountAux s.toList false

/-- Helper for `str.splitlines()` (the program's texts use `\n`). -/
def splitLinesAux : List Char → List Char → List String
  | [], cur => [String.mk cur.reverse]
  | c :: rest, cur =>
    if c == '\n' then String.mk cur.reverse :: splitLinesAux rest []
    else splitLinesAux rest (c :: cur)

/-- Python `s.splitlines()` on `\n`-separated text (a trailing empty piece
may differ from CPython; the caller filters blank lines away). -/
def pySplitLines (s : String) : List String := splitLinesAux s.toList []

/-- Python truthiness of an optional string: `None` and `""` are falsy. -/
def truthy : Option String → Bool
  | some s => s != ""
  | none => false

/-- Python `a or b` on two optional strings. -/
def pyOrOpt (a b : Option String) : Option String := if truthy a then a else b

/-- Python `a or b` where the fallback is a plain string. -/
def pyOrStr (a : Option String) (b : String) : String :=
  match a with
  | some s => if s = "" then b else s
  | none => b

/-- `BANNED_WORDS` from the config section (already lowercase). -/
def BANNED_WORDS : List String := ["zov"]

/-- `INSUFFICIENT_PHRASES` from the config section. -/
def INSUFFICIENT_PHRASES : List String :=
  ["мало информации", "недостаточно информации", "не могу составить",
   "нет информации", "недостаточно данных"]

/-- `make_ai_key`: the chat-rewrite dedup key. The SHA-256 hex digest is
an external library call, passed in as `sha256hex`. -/
def make_ai_key (sha256hex : String → String) (text : String) : String :=
  "AI|" ++ sha256hex (pyLower (pyStrip text))

/-- `make_rss_key`: the RSS dedup key `f"RSS|{title.strip().lower()}|{link}"`. -/
def make_rss_key (title link : String) : String :=
  "RSS|" ++ pyLower (pyStrip title) ++ "|" ++ link

/-- `message_has_banned_word`: case-insensitive substring match against
`BANNED_WORDS`. -/
def message_has_banned_word (text : String) : Bool :=
  BANNED_WORDS.any (fun w => pyIn w (pyLower text))

/-- `looks_insufficient_text`: fewer than 3 whitespace tokens, or any
configured insufficiency phrase occurs (both on the stripped, lowered text). -/
def looks_insufficient_text (text : String) : Bool :=
  decide (pyWordCount (pyLower (pyStrip text)) < 3) ||
    INSUFFICIENT_PHRASES.any (fun ph => pyIn ph (pyLower (pyStrip text)))

/-! ### Idempotence of `pyStrip`
Needed to relate the key the RSS loop computes (which strips the title
before calling `make_rss_key`, which strips again) to the spec's
`"RSS|" + lowercase(trim(title)) + "|" + link`. -/

theorem dropTrailing_idem (l : List Char) :
    dropTrailing (dropTrailing l) = dropTrailing l := by
  induction l with
  | nil => rfl
  | cons c rest ih =>
    by_cases h : (dropTrailing rest).isEmpty && wsp c
    · simp only [dropTrailing, h, if_true]
    · simp only [dropTrailing, h, if_false]
      simp only [dropTrailing, ih, h, if_false]

theorem head_dropWhile_wsp (l : List Char) (c : Char)
    (h : (l.dropWhile wsp).head? = some c) : wsp c = false := by
  induction l with
  | nil => simp [List.dropWhile] at h
  | cons a rest ih =>
    by_cases ha : wsp a
    · rw [List.dropWhile_cons_of_pos ha] at h
      exact ih h
    · rw [List.dropWhile_cons_of_neg ha] at h
      simp only [List.head?_cons, Option.some.injEq] at h
      subst h
      simpa using ha

theorem dropWhile_eq_self_of_head (l : List Char)
    (h : ∀ c, l.head? = some c → wsp c = false) : l.dropWhile wsp = l := by
  cases l with
  | nil => rfl
  | cons a rest =>
    have := h a rfl
    rw [List.dropWhile_cons_of_neg (by simp [this])]

theorem head_dropTrailing (x : List Char) :
    (dropTrailing x).head? = none ∨ (dropTrailing x).head? = x.head? := by
  cases x with
  | nil => left; rfl
  | cons c rest =>
    by_cases h : (dropTrailing rest).isEmpty && wsp c
    · left; simp [dropTrailing, h]
    · right; simp [dropTrailing, h]

theorem stripL_idem (l : List Char) :
    dropTrailing ((dropTrailing (l.dropWhile wsp)).dropWhile wsp) =
      dropTrailing (l.dropWhile wsp) := by
  have hdw : (dropTrailing (l.dropWhile wsp)).dropWhile wsp =
      dropTrailing (l.dropWhile wsp) := by
    apply dropWhile_eq_self_of_head
    intro c hc
    rcases head_dropTrailing (l.dropWhile wsp) with h | h
    · rw [h] at hc; exact absurd hc (by simp)
    · rw [h] at hc; exact head_dropWhile_wsp l c hc
  rw [hdw, dropTrailing_idem]

theorem pyStrip_idem (s : String) : pyStrip (pyStrip s) = pyStrip s := by
  show String.mk (dropTrailing (((String.mk
      (dropTrailing (s.toList.dropWhile wsp))).toList).dropWhile wsp)) = _
  have : (String.mk (dropTrailing (s.toList.dropWhile wsp))).toList =
      dropTrailing (s.toList.dropWhile wsp) := rfl
  rw [this, stripL_idem]
  rfl

/-! ### Image resolver (`get_image_from_rss_entry`, `fetch_og_image`) -/

/-- The `media_content` field of a feedparser entry: absent (or falsy),
a non-falsy list of dicts (each with an optional `url`), or a non-falsy
dict with an optional `url`. -/
inductive MediaContent
  | absent
  | mlist (urls : List (Option String))
  | mdict (url : Option String)
deriving DecidableEq

/-- An enclosure dict: its optional `href`. -/
structure Enclosure where
  href : Option String
deriving DecidableEq

/-- A `links` item: `type` (defaulted to `""` by `l.get("type", "")`)
and optional `href`. -/
structure LinkObj where
  type : String
  href : Option String
deriving DecidableEq

/-- A feedparser entry, restricted to the fields `Bot.py` reads.
`content` holds the optional `value` of each content dict. -/
structure RSSEntry where
  title : Option String
  link : Option String
  id : Option String
  summary : Option String
  description : Option String
  content : List (Option String)
  media_content : MediaContent
  enclosures : List Enclosure
  links : List LinkObj
deriving DecidableEq

/-- The image filename extensions accepted for enclosures. -/
def imageExts : List String := [".jpg", ".jpeg", ".png", ".gif", ".webp"]

/-- The `media_content` block: `some r` means the function returns `r`
there (even when `r` is `none`, as for `mc[0].get("url")` missing),
`none` means fall through to the next step. -/
def mediaStep : MediaContent → Option (Option String)
  | .absent => none
  | .mlist [] => none
  | .mlist (u :: _) => some u
  | .mdict u => some u

/-- The enclosure loop: first truthy `href` ending in an image extension. -/
def enclosureStep : List Enclosure → Option String
  | [] => none
  | e :: rest =>
    match e.href with
    | some h =>
      if h != "" && imageExts.any (fun ext => trailsWith ext (pyLower h)) then
        some h
      else enclosureStep rest
    | none => enclosureStep rest

/-- The `links` loop: first truthy `href` whose declared type starts with
`"image"`. -/
def linksStep : List LinkObj → Option String
  | [] => none
  | l :: rest =>
    match l.href with
    | some h =>
      if h != "" && l.type != "" && leadsWith "image".toList l.type.toList then
        some h
      else linksStep rest
    | none => linksStep rest

/-- `entry.get("summary") or entry.get("description") or ""`. -/
def entrySummaryHtml (e : RSSEntry) : String :=
  pyOrStr e.summary (pyOrStr e.description "")

/-- `get_image_from_rss_entry`. HTML parsing is external: `findImg html`
models `BeautifulSoup(html).find("img")` returning its first truthy `src`. -/
def get_image_from_rss_entry (findImg : String → Option String)
    (e : RSSEntry) : Option String :=
  match mediaStep e.media_content with
  | some r => r
  | none =>
    match enclosureStep e.enclosures with
    | some h => some h
    | none =>
      match linksStep e.links with
      | some h => some h
      | none =>
        if entrySummaryHtml e ≠ "" then findImg (entrySummaryHtml e) else none

/-- Outcome of the bounded network fetch of the item's link:
an exception / timeout, or an HTTP response with a status and a body. -/
inductive FetchResult
  | fail
  | ok (status : Nat) (html : String)
deriving DecidableEq

/-- `fetch_og_image`: on exception or non-200 return `None`; otherwise the
truthy `og:image` content (`findOg`), else the first truthy img `src`
(`findImg`). -/
def fetch_og_image (findOg findImg : String → Option String)
    (r : FetchResult) : Option String :=
  match r with
  | .fail => none
  | .ok status html =>
    if status ≠ 200 then none
    else
      match findOg html with
      | some c => some c
      | none => findImg html

/-! ### Rewrite gateway (`process_with_ai_async`) -/

/-- A `message` object inside a choice: its optional `content` string. -/
structure AIMessage where
  content : Option String
deriving DecidableEq

/-- A choice object: its optional `message`. -/
structure AIChoice where
  message : Option AIMessage
deriving DecidableEq

/-- The response body: unparseable JSON (or a shape on which `.get`
raises), or a parsed object with an optional `choices` list. -/
inductive AIBody
  | parseError
  | parsed (choices : Option (List AIChoice))
deriving DecidableEq

/-- Outcome of the HTTP POST: an exception / timeout, or a response with
a status and body. -/
inductive AIOutcome
  | transportError
  | response (status : Nat) (body : AIBody)
deriving DecidableEq

/-- `process_with_ai_async`. The whole request is inside `try/except`
returning `original_text`, a non-200 status returns `original_text`, and
the success path evaluates
`j.get("choices", [{}])[0].get("message", {}).get("content", original_text).strip()`
(an empty `choices` list raises IndexError, caught by the `except`). -/
def process_with_ai (original_text : String) (o : AIOutcome) : String :=
  match o with
  | .transportError => original_text
  | .response status body =>
    if status ≠ 200 then original_text
    else
      match body with
      | .parseError => original_text
      | .parsed choices =>
        match choices.getD [⟨none⟩] with
        | [] => original_text
        | c :: _ => pyStrip (((c.message.getD ⟨none⟩).content).getD original_text)

/-! ### Cards, delivery events, dedup store -/

/-- A formatted news card (the embed fields the pipeline computes;
decorations such as the 📰 title marker and the footer text are display
concerns kept out of the model). -/
structure Card where
  title : String
  body : String
  url : Option String
  image : Option String
  author : String
deriving DecidableEq

/-- Observable events on the delivery channel and dedup store:
a successful send of the item with dedup key `k`, a failed send,
`posted_links.add(k)`, and `save_posted` (the synchronous flush). -/
inductive Ev
  | sent (k : String)
  | sendFailed (k : String)
  | add (k : String)
  | save
deriving DecidableEq

/-- `posted_links.add`: Python set insertion (idempotent). -/
def setAdd (s : List String) (k : String) : List String :=
  if s.contains k then s else k :: s

/-! ### Chat ingestion handler (`on_message`, NEWS channel path) -/

/-- The per-message context: the text extracted by
`extract_text_from_message`, the rewrite-service outcome, the image
extracted by `extract_image_from_message`, whether
`bot.get_channel(TARGET_CHANNEL_ID)` is found, and whether
`target.send` succeeds. -/
structure ChatCtx where
  text : String
  ai : AIOutcome
  image : Option String
  targetOk : Bool
  sendOk : Bool
deriving DecidableEq

/-- Result of one `on_message` invocation on the NEWS channel:
the published card (if any), the dedup store afterwards, and the
delivery/store events. -/
structure ChatResult where
  published : Option Card
  store : List String
  events : List Ev
deriving DecidableEq

/-- `[ln.strip() for ln in rewritten.splitlines() if ln.strip()]`. -/
def chatLines (rewritten : String) : List String :=
  ((pySplitLines rewritten).map pyStrip).filter (fun l => l ≠ "")

/-- `lines[0][:250] if lines else "Новость"`. -/
def chatTitle (lines : List String) : String :=
  match lines with
  | [] => "Новость"
  | l0 :: _ => pyTake l0 250

/-- The 4096-character cap with truncation marker applied to the body. -/
def capBody (b : String) : String :=
  if pyLen b > 4096 then pyTake b 4090 ++ "..." else b

/-- `"\n".join(lines[1:]) if len(lines) > 1 else rewritten`, then the
4096-cap with truncation marker. -/
def chatBody (lines : List String) (rewritten : String) : String :=
  capBody (if lines.length > 1 then String.intercalate "\n" lines.tail
           else rewritten)

/-- The rewritten text the handler works with. -/
def chatRewritten (c : ChatCtx) : String := process_with_ai c.text c.ai

/-- The chat dedup key `make_ai_key(rewritten)`. -/
def chatKey (sha256hex : String → String) (c : ChatCtx) : String :=
  make_ai_key sha256hex (chatRewritten c)

/-- The embed the chat handler builds. -/
def chatCard (c : ChatCtx) : Card :=
  { title := chatTitle (chatLines (chatRewritten c))
  , body := chatBody (chatLines (chatRewritten c)) (chatRewritten c)
  , url := none
  , image := if truthy c.image then c.image else none
  , author := "" }

/-- The NEWS-channel news path of `on_message`: empty text, banned word
and insufficiency rejections, rewrite, the post-rewrite insufficiency and
length re-check on the lowered rewritten text, dedup membership, embed
formatting, delivery; the key is added and the store flushed only after a
successful send. -/
def on_message_news (sha256hex : String → String) (store : List String)
    (c : ChatCtx) : ChatResult :=
  if c.text = "" then ⟨none, store, []⟩
  else if message_has_banned_word c.text then ⟨none, store, []⟩
  else if looks_insufficient_text c.text then ⟨none, store, []⟩
  else if INSUFFICIENT_PHRASES.any
      (fun ph => pyIn ph (pyLower (chatRewritten c))) ||
      decide (pyWordCount (pyLower (chatRewritten c)) < 3) then
    ⟨none, store, []⟩
  else if store.contains (chatKey sha256hex c) then ⟨none, store, []⟩
  else if c.targetOk then
    if c.sendOk then
      ⟨some (chatCard c), setAdd store (chatKey sha256hex c),
       [.sent (chatKey sha256hex c), .add (chatKey sha256hex c), .save]⟩
    else ⟨none, store, [.sendFailed (chatKey sha256hex c)]⟩
  else ⟨none, store, []⟩

/-! ### RSS polling loop (`rss_loop`) -/

/-- One entry together with the outcomes of its external calls:
the link fetch used by `fetch_og_image` and whether `ch.send` succeeds. -/
structure EntryCtx where
  e : RSSEntry
  fetch : FetchResult
  sendOk : Bool
deriving DecidableEq

/-- One configured feed in one poll cycle: the source name from
`RSS_FEEDS`, whether `feedparser.parse` succeeded, the parsed feed title,
and the parsed entries. -/
structure Feed where
  sourceName : String
  parseOk : Bool
  feedTitle : Option String
  entries : List EntryCtx
deriving DecidableEq

/-- Accumulated state of one poll cycle: cards published so far, the dedup
store, the event trace, and the `new_added` flag. -/
structure StepRes where
  published : List Card
  store : List String
  events : List Ev
  newAdded : Bool
deriving DecidableEq

/-- `entry.get("link") or entry.get("id")`. -/
def entryLink (e : RSSEntry) : Option String := pyOrOpt e.link e.id

/-- `entry.get("title", "Без заголовка").strip()`. -/
def entryTitle (e : RSSEntry) : String := pyStrip (e.title.getD "Без заголовка")

/-- The dedup key the loop derives for an entry. -/
def entryKey (e : RSSEntry) : String :=
  make_rss_key (entryTitle e) ((entryLink e).getD "")

/-- `summary or description or ""`, falling back to
`entry.content[0].get("value", "") or ""` when empty and content exists. -/
def entrySummary (e : RSSEntry) : String :=
  let s0 := pyOrStr e.summary (pyOrStr e.description "")
  if s0 = "" then
    match e.content with
    | [] => s0
    | v :: _ => pyOrStr v ""
  else s0

/-- The embed the RSS loop builds for an entry (title capped at 256,
description cleaned via the external `get_text` = `getText` and capped at
2048, image from the fallback chain with the `fetch_og_image` last
resort). -/
def rssCard (getText : String → String) (findOg findImg : String → Option String)
    (feedTitle : String) (c : EntryCtx) : Card :=
  let descr := pyStrip (getText (entrySummary c.e))
  let image0 := get_image_from_rss_entry findImg c.e
  let image := if truthy image0 then image0
               else fetch_og_image findOg findImg c.fetch
  { title := pyTake (entryTitle c.e) 256
  , body := if descr ≠ "" then pyTake descr 2048 else ""
  , url := some ((entryLink c.e).getD "")
  , image := if truthy image then image else none
  , author := feedTitle }

/-- Processing of a single entry inside the cycle: skip when the entry has
no truthy link-or-id, skip when the key is already in the store (before
any image work), otherwise build the embed and attempt delivery; on
success add the key and set `new_added`, on failure log and continue. -/
def processEntry (getText : String → String)
    (findOg findImg : String → Option String) (feedTitle : String)
    (acc : StepRes) (c : EntryCtx) : StepRes :=
  if truthy (entryLink c.e) = false then acc
  else if acc.store.contains (entryKey c.e) then acc
  else if c.sendOk then
    { published := acc.published ++ [rssCard getText findOg findImg feedTitle c]
    , store := setAdd acc.store (entryKey c.e)
    , events := acc.events ++ [.sent (entryKey c.e), .add (entryKey c.e)]
    , newAdded := true }
  else { acc with events := acc.events ++ [.sendFailed (entryKey c.e)] }

/-- Per-feed processing: a parse failure skips the feed; otherwise at most
the first 6 entries are processed with the feed title
`getattr(feed, "feed", {}).get("title", source_name)`. -/
def processFeed (getText : String → String)
    (findOg findImg : String → Option String) (acc : StepRes) (f : Feed) :
    StepRes :=
  if f.parseOk then
    (f.entries.take 6).foldl
      (processEntry getText findOg findImg (f.feedTitle.getD f.sourceName)) acc
  else acc

/-- The feed-processing part of one poll cycle. -/
def rssCycleCore (getText : String → String)
    (findOg findImg : String → Option String) (store : List String)
    (feeds : List Feed) : StepRes :=
  feeds.foldl (processFeed getText findOg findImg) ⟨[], store, [], false⟩

/-- One full poll cycle of `rss_loop` (the destination channel present):
all feeds in order, then `save_posted` once iff `new_added`. -/
def rss_cycle (getText : String → String)
    (findOg findImg : String → Option String) (store : List String)
    (feeds : List Feed) : StepRes :=
  if (rssCycleCore getText findOg findImg store feeds).newAdded then
    { rssCycleCore getText findOg findImg store feeds with
      events := (rssCycleCore getText findOg findImg store feeds).events ++
        [.save] }
  else rssCycleCore getText findOg findImg store feeds

/-! ### Manual submission workflow (`cmd_news`) -/

/-- A reply awaited by `bot.wait_for("message", ...)`: either the message
content, or the timeout firing. -/
inductive Reply
  | msg (content : String)
  | timeout
deriving DecidableEq

/-- The four operator replies: title, body, source link, image URL. -/
structure NewsReplies where
  r1 : Reply
  r2 : Reply
  r3 : Reply
  r4 : Reply
deriving DecidableEq

/-- Outcome of one `!news` invocation. -/
inductive NewsOutcome
  | timedOut
  | cancelled
  | noTarget
  | deliveryFailed
  | published (c : Card)
deriving DecidableEq

/-- `cmd_news`: the interactive workflow. Only the title and body prompts
compare the reply against the literal `"отмена"`; the source-link and
image prompts accept `"-"` as "omitted" and otherwise take the reply
verbatim. The global `posted_links` store is in scope but never read or
written, so it is threaded through unchanged. -/
def cmd_news (store : List String) (rp : NewsReplies)
    (targetOk sendOk : Bool) : NewsOutcome × List String :=
  match rp.r1 with
  | .timeout => (.timedOut, store)
  | .msg m1 =>
    if pyLower m1 = "отмена" then (.cancelled, store)
    else
      match rp.r2 with
      | .timeout => (.timedOut, store)
      | .msg m2 =>
        if pyLower m2 = "отмена" then (.cancelled, store)
        else
          match rp.r3 with
          | .timeout => (.timedOut, store)
          | .msg m3 =>
            match rp.r4 with
            | .timeout => (.timedOut, store)
            | .msg m4 =>
              let src := if pyStrip m3 = "-" then none else some (pyStrip m3)
              let img := if pyStrip m4 = "-" then none else some (pyStrip m4)
              let card : Card :=
                { title := pyTake (pyStrip m1) 256
                , body := pyTake (pyStrip m2) 4096
                , url := if truthy src then src else none
                , image := if truthy img then img else none
                , author := "" }
              if targetOk then
                if sendOk then (.published card, store)
                else (.deliveryFailed, store)
              else (.noTarget, store)

/-! ### Helper lemmas on entry processing -/

theorem entryLink_of_link {e : RSSEntry} {l : String} (he : e.link = some l)
    (hl : l ≠ "") : entryLink e = some l := by
  unfold entryLink pyOrOpt
  rw [he]
  simp [truthy, hl]

theorem make_rss_key_strip (t l : String) :
    make_rss_key (pyStrip t) l = make_rss_key t l := by
  unfold make_rss_key
  rw [pyStrip_idem]

theorem entryKey_of_fields {e : RSSEntry} {t l : String} (ht : e.title = some t)
    (he : e.link = some l) (hl : l ≠ "") : entryKey e = make_rss_key t l := by
  unfold entryKey entryTitle
  rw [ht, entryLink_of_link he hl]
  exact make_rss_key_strip t l

theorem pe_skip_blank (getText : String → String)
    (findOg findImg : String → Option String) (ft : String) (acc : StepRes)
    (c : EntryCtx) (h : truthy (entryLink c.e) = false) :
    processEntry getText findOg findImg ft acc c = acc := by
  unfold processEntry
  simp [h]

theorem pe_skip_mem (getText : String → String)
    (findOg findImg : String → Option String) (ft : String) (acc : StepRes)
    (c : EntryCtx) (h1 : truthy (entryLink c.e) = true)
    (h2 : acc.store.contains (entryKey c.e) = true) :
    processEntry getText findOg findImg ft acc c = acc := by
  unfold processEntry
  rw [if_neg (by simp [h1]), if_pos h2]

theorem pe_publish (getText : String → String)
    (findOg findImg : String → Option String) (ft : String) (acc : StepRes)
    (c : EntryCtx) (h1 : truthy (entryLink c.e) = true)
    (h2 : acc.store.contains (entryKey c.e) = false) (h3 : c.sendOk = true) :
    processEntry getText findOg findImg ft acc c =
      { published := acc.published ++ [rssCard getText findOg findImg ft c]
      , store := setAdd acc.store (entryKey c.e)
      , events := acc.events ++ [.sent (entryKey c.e), .add (entryKey c.e)]
      , newAdded := true } := by
  unfold processEntry
  rw [if_neg (by simp [h1]), if_neg (by rw [h2]; simp), if_pos h3]

theorem pe_fail (getText : String → String)
    (findOg findImg : String → Option String) (ft : String) (acc : StepRes)
    (c : EntryCtx) (h1 : truthy (entryLink c.e) = true)
    (h2 : acc.store.contains (entryKey c.e) = false) (h3 : c.sendOk = false) :
    processEntry getText findOg findImg ft acc c =
      { acc with events := acc.events ++ [.sendFailed (entryKey c.e)] } := by
  unfold processEntry
  rw [if_neg (by simp [h1]), if_neg (by rw [h2]; simp), if_neg (by rw [h3]; simp)]

theorem cycle_single (getText : String → String)
    (findOg findImg : String → Option String) (store : List String)
    (n : String) (ft : Option String) (c : EntryCtx) :
    rss_cycle getText findOg findImg store [⟨n, true, ft, [c]⟩] =
      (let r := processEntry getText findOg findImg (ft.getD n)
        ⟨[], store, [], false⟩ c;
       if r.newAdded then { r with events := r.events ++ [.save] } else r) := by
  rfl

/-- **C1.** For any two RSS entries whose titles agree after stripping and
lowercasing and whose links are equal, the derived dedup key is the same
string `"RSS|" + lowercase(trim(title)) + "|" + link`; if the first entry
is delivered in one poll cycle, a later cycle seeing the second entry
publishes nothing for it and leaves the store unchanged (the entry is
skipped by the dedup-store membership check, which the model takes before
any image work). -/
theorem C1_rss_key_dedup_across_cycles (getText : String → String)
    (findOg findImg : String → Option String) (e1 e2 : RSSEntry)
    (f1 f2 : FetchResult) (s2 : Bool) (t1 t2 l : String) (store : List String)
    (h1 : e1.title = some t1) (h2 : e2.title = some t2)
    (hl1 : e1.link = some l) (hl2 : e2.link = some l) (hl : l ≠ "")
    (ht : pyLower (pyStrip t1) = pyLower (pyStrip t2))
    (hfresh : store.contains (make_rss_key t1 l) = false) :
    make_rss_key t1 l = "RSS|" ++ pyLower (pyStrip t1) ++ "|" ++ l ∧
    make_rss_key t2 l = make_rss_key t1 l ∧
    (rss_cycle getText findOg findImg store
        [⟨"A", true, none, [⟨e1, f1, true⟩]⟩]).published.length = 1 ∧
    (rss_cycle getText findOg findImg store
        [⟨"A", true, none, [⟨e1, f1, true⟩]⟩]).store.contains
        (make_rss_key t1 l) = true ∧
    (rss_cycle getText findOg findImg
        ((rss_cycle getText findOg findImg store
          [⟨"A", true, none, [⟨e1, f1, true⟩]⟩]).store)
        [⟨"B", true, none, [⟨e2, f2, s2⟩]⟩]).published = [] ∧
    (rss_cycle getText findOg findImg
        ((rss_cycle getText findOg findImg store
          [⟨"A", true, none, [⟨e1, f1, true⟩]⟩]).store)
        [⟨"B", true, none, [⟨e2, f2, s2⟩]⟩]).store =
      (rss_cycle getText findOg findImg store
        [⟨"A", true, none, [⟨e1, f1, true⟩]⟩]).store := by
  have hk1 : entryKey e1 = make_rss_key t1 l := entryKey_of_fields h1 hl1 hl
  have hk2 : entryKey e2 = make_rss_key t1 l := by
    rw [entryKey_of_fields h2 hl2 hl]
    unfold make_rss_key
    rw [ht]
  have htr1 : truthy (entryLink e1) = true := by
    rw [entryLink_of_link hl1 hl]
    simp [truthy, hl]
  have htr2 : truthy (entryLink e2) = true := by
    rw [entryLink_of_link hl2 hl]
    simp [truthy, hl]
  have hc1 : rss_cycle getText findOg findImg store
      [⟨"A", true, none, [⟨e1, f1, true⟩]⟩] =
      { published := [rssCard getText findOg findImg "A" ⟨e1, f1, true⟩]
      , store := make_rss_key t1 l :: store
      , events := [.sent (make_rss_key t1 l), .add (make_rss_key t1 l), .save]
      , newAdded := true } := by
    rw [cycle_single]
    rw [pe_publish getText findOg findImg _ _ _ htr1 (by rw [hk1]; exact hfresh) rfl]
    have hni : make_rss_key t1 l ∉ store := by simpa using hfresh
    simp [setAdd, hk1, hni]
  have hmem : (make_rss_key t1 l :: store).contains (make_rss_key t1 l) = true := by
    simp
  refine ⟨rfl, ?_, ?_, ?_, ?_, ?_⟩
  · rw [← entryKey_of_fields h2 hl2 hl]
    exact hk2
  · rw [hc1]
    rfl
  · rw [hc1]
    exact hmem
  · rw [hc1, cycle_single]
    rw [pe_skip_mem getText findOg findImg _ _ _ htr2 (by rw [hk2]; exact hmem)]
    rfl
  · rw [hc1, cycle_single]
    rw [pe_skip_mem getText findOg findImg _ _ _ htr2 (by rw [hk2]; exact hmem)]
    rfl

/-- Closed witness for C1: the concrete scenario from the spec, with a
case- and whitespace-varied duplicate title in the second cycle. -/
theorem C1_witness :
    make_rss_key "Storm Warning" "https://x/1" =
      "RSS|" ++ pyLower (pyStrip "Storm Warning") ++ "|" ++ "https://x/1" ∧
    make_rss_key " storm warning " "https://x/1" =
      make_rss_key "Storm Warning" "https://x/1" ∧
    (rss_cycle id (fun _ => none) (fun _ => none) []
        [⟨"A", true, none, [⟨⟨some "Storm Warning", some "https://x/1", none,
          none, none, [], .absent, [], []⟩, .fail, true⟩]⟩]).published.length = 1 ∧
    (rss_cycle id (fun _ => none) (fun _ => none) []
        [⟨"A", true, none, [⟨⟨some "Storm Warning", some "https://x/1", none,
          none, none, [], .absent, [], []⟩, .fail, true⟩]⟩]).store.contains
        (make_rss_key "Storm Warning" "https://x/1") = true ∧
    (rss_cycle id (fun _ => none) (fun _ => none)
        ((rss_cycle id (fun _ => none) (fun _ => none) []
          [⟨"A", true, none, [⟨⟨some "Storm Warning", some "https://x/1", none,
            none, none, [], .absent, [], []⟩, .fail, true⟩]⟩]).store)
        [⟨"B", true, none, [⟨⟨some " storm warning ", some "https://x/1", none,
          none, none, [], .absent, [], []⟩, .fail, true⟩]⟩]).published = [] ∧
    (rss_cycle id (fun _ => none) (fun _ => none)
        ((rss_cycle id (fun _ => none) (fun _ => none) []
          [⟨"A", true, none, [⟨⟨some "Storm Warning", some "https://x/1", none,
            none, none, [], .absent, [], []⟩, .fail, true⟩]⟩]).store)
        [⟨"B", true, none, [⟨⟨some " storm warning ", some "https://x/1", none,
          none, none, [], .absent, [], []⟩, .fail, true⟩]⟩]).store =
      (rss_cycle id (fun _ => none) (fun _ => none) []
        [⟨"A", true, none, [⟨⟨some "Storm Warning", some "https://x/1", none,
          none, none, [], .absent, [], []⟩, .fail, true⟩]⟩]).store :=
  C1_rss_key_dedup_across_cycles id (fun _ => none) (fun _ => none)
    ⟨some "Storm Warning", some "https://x/1", none, none, none, [], .absent, [], []⟩
    ⟨some " storm warning ", some "https://x/1", none, none, none, [], .absent, [], []⟩
    .fail .fail true "Storm Warning" " storm warning " "https://x/1" []
    rfl rfl rfl rfl (by decide) (by decide) (by decide)

/-- **C3 counterexample.** On a 200 response whose parsed body has a
choice without message content (a malformed body), the gateway returns
`original_text.strip()`, not the original text unchanged: for input
`" hi "` it returns `"hi"`. -/
theorem C3_counterexample :
    process_with_ai " hi " (.response 200 (.parsed (some [⟨some ⟨none⟩⟩]))) = "hi" ∧
    " hi " ≠ "hi" := by
  exact ⟨rfl, by decide⟩

/-- **C3 (amended).** The rewrite gateway never raises (it is a total
function of the outcome) and never drops an item; it returns the original
text *unchanged* on transport failure, non-200 status, unparseable body,
or an empty `choices` list (IndexError, caught); but on a parsed body
whose first choice carries no message content it returns the original
text with surrounding whitespace stripped — `.strip()` is applied to the
`original_text` default — so not necessarily unchanged. -/
theorem C3_amended_rewrite_failopen (orig : String) (st : Nat) (body : AIBody)
    (c : AIChoice) (rest : List AIChoice) :
    process_with_ai orig .transportError = orig ∧
    (st ≠ 200 → process_with_ai orig (.response st body) = orig) ∧
    process_with_ai orig (.response 200 .parseError) = orig ∧
    process_with_ai orig (.response 200 (.parsed (some []))) = orig ∧
    process_with_ai orig (.response 200 (.parsed none)) = pyStrip orig ∧
    ((c.message.getD ⟨none⟩).content = none →
      process_with_ai orig (.response 200 (.parsed (some (c :: rest)))) =
        pyStrip orig) := by
  refine ⟨rfl, ?_, rfl, rfl, rfl, ?_⟩
  · intro h
    unfold process_with_ai
    dsimp only
    rw [if_pos h]
  · intro h
    unfold process_with_ai
    simp [h]

/-- Closed witness for C3: the non-200 and malformed-content arms of the
amended theorem at concrete inputs. -/
theorem C3_witness :
    process_with_ai " hi " (.response 500 .parseError) = " hi " ∧
    process_with_ai " hi " (.response 200 (.parsed (some [⟨none⟩]))) =
      pyStrip " hi " :=
  ⟨(C3_amended_rewrite_failopen " hi " 500 .parseError ⟨none⟩ []).2.1 (by decide),
   (C3_amended_rewrite_failopen " hi " 500 .parseError ⟨none⟩ []).2.2.2.2.2
     (by decide)⟩

/-- **C7 counterexample.** Replying the literal cancellation word at the
third (source-link) prompt does not abort the workflow: it is taken as
the field value and a card is published with that word as its source URL. -/
theorem C7_counterexample :
    (cmd_news [] ⟨.msg "Заголовок", .msg "Текст новости", .msg "отмена",
      .msg "-"⟩ true true).1 =
      NewsOutcome.published
        { title := "Заголовок", body := "Текст новости"
        , url := some "отмена", image := none, author := "" } := by
  rfl

/-- **C7 (amended).** The cancellation word aborts the workflow (nothing
published, store untouched) only at the first two prompts (title, body);
at the source-link and image prompts it is accepted as the literal field
value and the workflow proceeds to publish. -/
theorem C7_amended_cancel_first_two_steps_only (store : List String)
    (m1 m2 m3 m4 : String) (r2 r3 r4 : Reply) (t s : Bool) :
    (pyLower m1 = "отмена" →
      cmd_news store ⟨.msg m1, r2, r3, r4⟩ t s = (.cancelled, store)) ∧
    (pyLower m1 ≠ "отмена" → pyLower m2 = "отмена" →
      cmd_news store ⟨.msg m1, .msg m2, r3, r4⟩ t s = (.cancelled, store)) ∧
    (pyLower m1 ≠ "отмена" → pyLower m2 ≠ "отмена" →
      ∃ c : Card,
        cmd_news store ⟨.msg m1, .msg m2, .msg "отмена", .msg m4⟩ true true =
          (.published c, store) ∧ c.url = some "отмена") ∧
    (pyLower m1 ≠ "отмена" → pyLower m2 ≠ "отмена" →
      ∃ c : Card,
        cmd_news store ⟨.msg m1, .msg m2, .msg m3, .msg "отмена"⟩ true true =
          (.published c, store) ∧ c.image = some "отмена") := by
  refine ⟨?_, ?_, ?_, ?_⟩
  · intro h
    unfold cmd_news
    dsimp only
    rw [if_pos h]
  · intro h1 h2
    unfold cmd_news
    dsimp only
    rw [if_neg h1, if_pos h2]
  · intro h1 h2
    unfold cmd_news
    dsimp only
    rw [if_neg h1, if_neg h2]
    exact ⟨_, rfl, by dsimp only; decide⟩
  · intro h1 h2
    unfold cmd_news
    dsimp only
    rw [if_neg h1, if_neg h2]
    exact ⟨_, rfl, by dsimp only; decide⟩

/-- Closed witness for C7: cancellation at the title and at the body
prompt aborts; at the source-link prompt it is published verbatim. -/
theorem C7_witness :
    cmd_news [] ⟨.msg "Отмена", .msg "x", .msg "y", .msg "z"⟩ true true =
      (.cancelled, []) ∧
    cmd_news [] ⟨.msg "T", .msg "отмена", .msg "y", .msg "z"⟩ true true =
      (.cancelled, []) ∧
    ∃ c : Card,
      cmd_news [] ⟨.msg "T", .msg "B", .msg "отмена", .msg "-"⟩ true true =
        (.published c, []) ∧ c.url = some "отмена" :=
  ⟨(C7_amended_cancel_first_two_steps_only [] "Отмена" "x" "y" "z"
      (.msg "x") (.msg "y") (.msg "z") true true).1 (by decide),
   (C7_amended_cancel_first_two_steps_only [] "T" "отмена" "y" "z"
      (.msg "отмена") (.msg "y") (.msg "z") true true).2.1 (by decide) (by decide),
   (C7_amended_cancel_first_two_steps_only [] "T" "B" "y" "-"
      (.msg "B") (.msg "y") (.msg "-") true true).2.2.1 (by decide) (by decide)⟩

/-- The manual workflow returns the dedup store unchanged in every branch
(the source never reads or writes `posted_links`). -/
theorem cmd_news_store_inv (store : List String) (rp : NewsReplies)
    (t s : Bool) : (cmd_news store rp t s).2 = store := by
  obtain ⟨r1, r2, r3, r4⟩ := rp
  cases r1 with
  | timeout => rfl
  | msg m1 =>
    by_cases hc1 : pyLower m1 = "отмена"
    · simp [cmd_news, hc1]
    · cases r2 with
      | timeout => simp [cmd_news, hc1]
      | msg m2 =>
        by_cases hc2 : pyLower m2 = "отмена"
        · simp [cmd_news, hc1, hc2]
        · cases r3 with
          | timeout => simp [cmd_news, hc1, hc2]
          | msg m3 =>
            cases r4 with
            | timeout => simp [cmd_news, hc1, hc2]
            | msg m4 =>
              by_cases ht : t <;> by_cases hs : s <;>
                simp [cmd_news, hc1, hc2, ht, hs]

/-- The manual workflow's outcome does not depend on the dedup store's
contents (no membership check anywhere). -/
theorem cmd_news_store_indep (store store2 : List String) (rp : NewsReplies)
    (t s : Bool) : (cmd_news store rp t s).1 = (cmd_news store2 rp t s).1 := by
  obtain ⟨r1, r2, r3, r4⟩ := rp
  cases r1 with
  | timeout => rfl
  | msg m1 =>
    by_cases hc1 : pyLower m1 = "отмена"
    · simp [cmd_news, hc1]
    · cases r2 with
      | timeout => simp [cmd_news, hc1]
      | msg m2 =>
        by_cases hc2 : pyLower m2 = "отмена"
        · simp [cmd_news, hc1, hc2]
        · cases r3 with
          | timeout => simp [cmd_news, hc1, hc2]
          | msg m3 =>
            cases r4 with
            | timeout => simp [cmd_news, hc1, hc2]
            | msg m4 =>
              by_cases ht : t <;> by_cases hs : s <;>
                simp [cmd_news, hc1, hc2, ht, hs]

/-- **C4.** Manual-workflow publications are never recorded in the dedup
store (the store comes back unchanged) and never checked against it (the
outcome is the same for any store contents); consequently, running the
workflow twice with the same title and body publishes the same card
twice, and a manual publication never blocks any later RSS or chat
publication, whose membership checks see an unchanged store. -/
theorem C4_manual_bypasses_dedup (store store2 : List String)
    (rp : NewsReplies) (t s : Bool) (m1 m2 m3 m4 : String)
    (h1 : pyLower m1 ≠ "отмена") (h2 : pyLower m2 ≠ "отмена") :
    (cmd_news store rp t s).2 = store ∧
    (cmd_news store rp t s).1 = (cmd_news store2 rp t s).1 ∧
    (∃ c : Card,
      (cmd_news store ⟨.msg m1, .msg m2, .msg m3, .msg m4⟩ true true).1 =
        .published c ∧
      (cmd_news ((cmd_news store ⟨.msg m1, .msg m2, .msg m3, .msg m4⟩
          true true).2)
        ⟨.msg m1, .msg m2, .msg m3, .msg m4⟩ true true).1 = .published c) := by
  refine ⟨cmd_news_store_inv store rp t s, cmd_news_store_indep store store2 rp t s, ?_⟩
  have hrun : ∀ st : List String,
      (cmd_news st ⟨.msg m1, .msg m2, .msg m3, .msg m4⟩ true true).1 =
        (cmd_news store ⟨.msg m1, .msg m2, .msg m3, .msg m4⟩ true true).1 :=
    fun st => cmd_news_store_indep st store _ true true
  have hpub : (cmd_news store ⟨.msg m1, .msg m2, .msg m3, .msg m4⟩
      true true).1 = .published
        { title := pyTake (pyStrip m1) 256
        , body := pyTake (pyStrip m2) 4096
        , url := if truthy (if pyStrip m3 = "-" then none else some (pyStrip m3))
                 then (if pyStrip m3 = "-" then none else some (pyStrip m3))
                 else none
        , image := if truthy (if pyStrip m4 = "-" then none else some (pyStrip m4))
                   then (if pyStrip m4 = "-" then none else some (pyStrip m4))
                   else none
        , author := "" } := by
    unfold cmd_news
    dsimp only
    rw [if_neg h1, if_neg h2]
    rfl
  exact ⟨_, hpub, by rw [hrun]; exact hpub⟩

/-- Closed witness for C4: publishing the same manual title/body twice in
succession delivers the same card twice. -/
theorem C4_witness :
    (cmd_news ["RSS|x|y"] ⟨.msg "Заголовок", .msg "Текст", .msg "-", .msg "-"⟩
      true true).2 = ["RSS|x|y"] ∧
    (cmd_news ["RSS|x|y"] ⟨.msg "Заголовок", .msg "Текст", .msg "-", .msg "-"⟩
      true true).1 =
      (cmd_news [] ⟨.msg "Заголовок", .msg "Текст", .msg "-", .msg "-"⟩
        true true).1 ∧
    (∃ c : Card,
      (cmd_news ["RSS|x|y"] ⟨.msg "Заголовок", .msg "Текст", .msg "-", .msg "-"⟩
        true true).1 = .published c ∧
      (cmd_news ((cmd_news ["RSS|x|y"]
          ⟨.msg "Заголовок", .msg "Текст", .msg "-", .msg "-"⟩ true true).2)
        ⟨.msg "Заголовок", .msg "Текст", .msg "-", .msg "-"⟩ true true).1 =
        .published c) :=
  C4_manual_bypasses_dedup ["RSS|x|y"] []
    ⟨.msg "Заголовок", .msg "Текст", .msg "-", .msg "-"⟩ true true
    "Заголовок" "Текст" "-" "-" (by decide) (by decide)

/-- If the chat handler publishes a card, every guard on the way to the
send succeeded: non-empty text, no banned word, the pre-rewrite
insufficiency check, the post-rewrite insufficiency/length check, the
dedup membership check, the target channel lookup, and the send itself;
and the card is the formatted one. -/
theorem chat_published_conditions (sha : String → String)
    (store : List String) (c : ChatCtx) (card : Card)
    (h : (on_message_news sha store c).published = some card) :
    c.text ≠ "" ∧
    message_has_banned_word c.text = false ∧
    looks_insufficient_text c.text = false ∧
    (INSUFFICIENT_PHRASES.any (fun ph => pyIn ph (pyLower (chatRewritten c))) ||
      decide (pyWordCount (pyLower (chatRewritten c)) < 3)) = false ∧
    store.contains (chatKey sha c) = false ∧
    c.targetOk = true ∧ c.sendOk = true ∧ card = chatCard c := by
  unfold on_message_news at h
  split_ifs at h with h1 h2 h3 h4 h5 h6 h7
  all_goals simp at h
  exact ⟨h1, by simpa using h2, by simpa using h3, by simpa using h4,
    by simpa using h5, h6, h7, h.symm⟩

/-- **C5.** A chat-origin item is published only if the extracted text is
non-empty, contains no banned term, has at least 3 whitespace tokens and
no insufficiency phrase, and the rewritten text (as lowered by the code)
again has at least 3 tokens and no insufficiency phrase. Equivalently,
a text failing any of these checks is never published. -/
theorem C5_chat_filter_necessary (sha : String → String)
    (store : List String) (c : ChatCtx) (card : Card)
    (h : (on_message_news sha store c).published = some card) :
    c.text ≠ "" ∧
    message_has_banned_word c.text = false ∧
    3 ≤ pyWordCount (pyLower (pyStrip c.text)) ∧
    (∀ ph ∈ INSUFFICIENT_PHRASES, pyIn ph (pyLower (pyStrip c.text)) = false) ∧
    3 ≤ pyWordCount (pyLower (chatRewritten c)) ∧
    (∀ ph ∈ INSUFFICIENT_PHRASES, pyIn ph (pyLower (chatRewritten c)) = false) := by
  obtain ⟨h1, h2, h3, h4, -, -, -, -⟩ := chat_published_conditions sha store c card h
  have h3' := h3
  unfold looks_insufficient_text at h3'
  rw [Bool.or_eq_false_iff] at h3' h4
  obtain ⟨h3a, h3b⟩ := h3'
  obtain ⟨h4a, h4b⟩ := h4
  refine ⟨h1, h2, ?_, ?_, ?_, ?_⟩
  · have := of_decide_eq_false h3a
    omega
  · intro ph hph
    have := List.any_eq_false.mp h3b
    exact Bool.eq_false_iff.mpr (this ph hph)
  · have := of_decide_eq_false h4b
    omega
  · intro ph hph
    have := List.any_eq_false.mp h4a
    exact Bool.eq_false_iff.mpr (this ph hph)

set_option maxRecDepth 8192 in
/-- Closed witness for C5: a concrete message that passes every check and
is published. -/
theorem C5_witness :
    "One two three four" ≠ "" ∧
    message_has_banned_word "One two three four" = false ∧
    3 ≤ pyWordCount (pyLower (pyStrip "One two three four")) ∧
    (∀ ph ∈ INSUFFICIENT_PHRASES,
      pyIn ph (pyLower (pyStrip "One two three four")) = false) ∧
    3 ≤ pyWordCount (pyLower (chatRewritten
      ⟨"One two three four",
       .response 200 (.parsed (some [⟨some ⟨some "Quake shakes city center"⟩⟩])),
       none, true, true⟩)) ∧
    (∀ ph ∈ INSUFFICIENT_PHRASES, pyIn ph (pyLower (chatRewritten
      ⟨"One two three four",
       .response 200 (.parsed (some [⟨some ⟨some "Quake shakes city center"⟩⟩])),
       none, true, true⟩)) = false) :=
  C5_chat_filter_necessary (fun _ => "H") []
    ⟨"One two three four",
     .response 200 (.parsed (some [⟨some ⟨some "Quake shakes city center"⟩⟩])),
     none, true, true⟩
    { title := "Quake shakes city center", body := "Quake shakes city center"
    , url := none, image := none, author := "" }
    (by rfl)

set_option maxRecDepth 8192 in
/-- **C9 counterexample.** A rewritten text consisting of a single
non-empty line does not yield an empty body: the body equals the whole
rewritten text (the `else rewritten` branch), duplicating the title. -/
theorem C9_counterexample :
    ((on_message_news (fun _ => "H") []
      ⟨"Alpha beta gamma", .response 200 (.parsed
        (some [⟨some ⟨some "Breaking news today"⟩⟩])), none, true, true⟩
      ).published.map (fun c => (c.title, c.body))) =
      some ("Breaking news today", "Breaking news today") := by
  rfl

/-- **C9 (amended).** For every published chat card: the title is the
first non-empty stripped line of the rewritten text capped at 250
characters (`"Новость"` when there is none); the body is the
newline-join of the *remaining stripped non-empty lines* when there are
at least two such lines, and otherwise the *entire rewritten text* (so a
single-line rewrite duplicates its line into the body); the body is
capped at 4096 characters by truncation to 4090 plus `"..."`. -/
theorem C9_amended_chat_card_format (sha : String → String)
    (store : List String) (c : ChatCtx) (card : Card)
    (h : (on_message_news sha store c).published = some card) :
    card.title = chatTitle (chatLines (chatRewritten c)) ∧
    (∀ l0 rest, chatLines (chatRewritten c) = l0 :: rest →
      card.title = pyTake l0 250) ∧
    (chatLines (chatRewritten c) = [] → card.title = "Новость") ∧
    (1 < (chatLines (chatRewritten c)).length →
      card.body = capBody (String.intercalate "\n"
        (chatLines (chatRewritten c)).tail)) ∧
    ((chatLines (chatRewritten c)).length ≤ 1 →
      card.body = capBody (chatRewritten c)) := by
  obtain ⟨-, -, -, -, -, -, -, hc⟩ := chat_published_conditions sha store c card h
  subst hc
  refine ⟨rfl, ?_, ?_, ?_, ?_⟩
  · intro l0 rest hl
    show chatTitle (chatLines (chatRewritten c)) = _
    rw [hl]
    rfl
  · intro hl
    show chatTitle (chatLines (chatRewritten c)) = _
    rw [hl]
    rfl
  · intro hl
    show chatBody (chatLines (chatRewritten c)) (chatRewritten c) = _
    unfold chatBody
    rw [if_pos hl]
  · intro hl
    show chatBody (chatLines (chatRewritten c)) (chatRewritten c) = _
    unfold chatBody
    rw [if_neg (by omega)]

set_option maxRecDepth 8192 in
/-- Closed witness for C9 (amended): a published two-line rewrite, whose
card has the first line as title and the second line as body. -/
theorem C9_witness :
    ({ title := "Hotfix released today", body := "Details inside now"
     , url := none, image := none, author := "" } : Card).title =
      chatTitle (chatLines (chatRewritten
        ⟨"Alpha beta gamma delta",
         .response 200 (.parsed (some [⟨some
           ⟨some "Hotfix released today\nDetails inside now"⟩⟩])),
         none, true, true⟩)) ∧
    (1 < (chatLines (chatRewritten
        ⟨"Alpha beta gamma delta",
         .response 200 (.parsed (some [⟨some
           ⟨some "Hotfix released today\nDetails inside now"⟩⟩])),
         none, true, true⟩)).length →
      ({ title := "Hotfix released today", body := "Details inside now"
       , url := none, image := none, author := "" } : Card).body =
        capBody (String.intercalate "\n" (chatLines (chatRewritten
          ⟨"Alpha beta gamma delta",
           .response 200 (.parsed (some [⟨some
             ⟨some "Hotfix released today\nDetails inside now"⟩⟩])),
           none, true, true⟩)).tail)) := by
  have := C9_amended_chat_card_format (fun _ => "H") []
    ⟨"Alpha beta gamma delta",
     .response 200 (.parsed (some [⟨some
       ⟨some "Hotfix released today\nDetails inside now"⟩⟩])),
     none, true, true⟩
    { title := "Hotfix released today", body := "Details inside now"
    , url := none, image := none, author := "" }
    (by rfl)
  exact ⟨this.1, this.2.2.2.1⟩

/-- **C6.** Image resolution never raises (it is a total function of the
recorded outcomes) and never aborts publication: `fetch_og_image` yields
"no image" on an exception/timeout and on any non-200 status; and for an
entry with no structured media, no image enclosure, no typed image link
and no `<img>` found in its summary, whose link fetch fails, the resolved
image is `none` and the entry is still published, with no image on the
card. -/
theorem C6_image_resolution_degrades (getText : String → String)
    (findOg findImg : String → Option String) (ft : String) (acc : StepRes)
    (e : RSSEntry)
    (hm : e.media_content = .absent) (hen : e.enclosures = [])
    (hlk : linksStep e.links = none)
    (hfi : findImg (entrySummaryHtml e) = none)
    (hlink : truthy (entryLink e) = true)
    (hmem : acc.store.contains (entryKey e) = false) :
    get_image_from_rss_entry findImg e = none ∧
    fetch_og_image findOg findImg .fail = none ∧
    (∀ st html, st ≠ 200 → fetch_og_image findOg findImg (.ok st html) = none) ∧
    (processEntry getText findOg findImg ft acc ⟨e, .fail, true⟩).published =
      acc.published ++ [rssCard getText findOg findImg ft ⟨e, .fail, true⟩] ∧
    (rssCard getText findOg findImg ft ⟨e, .fail, true⟩).image = none := by
  have hgi : get_image_from_rss_entry findImg e = none := by
    unfold get_image_from_rss_entry
    rw [hm, hlk]
    rw [hen]
    dsimp only [mediaStep, enclosureStep]
    by_cases hs : entrySummaryHtml e = ""
    · rw [if_neg (not_not_intro hs)]
    · rw [if_pos hs]
      exact hfi
  have hcard : (rssCard getText findOg findImg ft ⟨e, .fail, true⟩).image = none := by
    unfold rssCard
    dsimp only
    rw [hgi]
    rfl
  refine ⟨hgi, rfl, ?_, ?_, hcard⟩
  · intro st html hst
    unfold fetch_og_image
    dsimp only
    rw [if_pos hst]
  · rw [pe_publish getText findOg findImg ft acc ⟨e, .fail, true⟩ hlink hmem rfl]

/-- Closed witness for C6: a concrete entry with every resolution step
empty and a failing fetch is published without an image. -/
theorem C6_witness :
    get_image_from_rss_entry (fun _ => none)
      ⟨some "A b c", some "https://x/1", none, none, none, [], .absent, [], []⟩
      = none ∧
    fetch_og_image (fun _ => none) (fun _ => none) .fail = none ∧
    (∀ st html, st ≠ 200 →
      fetch_og_image (fun _ => none) (fun _ => none) (.ok st html) = none) ∧
    (processEntry id (fun _ => none) (fun _ => none) "Src" ⟨[], [], [], false⟩
      ⟨⟨some "A b c", some "https://x/1", none, none, none, [], .absent, [], []⟩,
       .fail, true⟩).published =
      ([] : List Card) ++ [rssCard id (fun _ => none) (fun _ => none) "Src"
        ⟨⟨some "A b c", some "https://x/1", none, none, none, [], .absent, [], []⟩,
         .fail, true⟩] ∧
    (rssCard id (fun _ => none) (fun _ => none) "Src"
      ⟨⟨some "A b c", some "https://x/1", none, none, none, [], .absent, [], []⟩,
       .fail, true⟩).image = none :=
  C6_image_resolution_degrades id (fun _ => none) (fun _ => none) "Src"
    ⟨[], [], [], false⟩
    ⟨some "A b c", some "https://x/1", none, none, none, [], .absent, [], []⟩
    rfl rfl rfl rfl (by decide) (by decide)

set_option maxRecDepth 8192 in
/-- **C8 counterexample.** A feed entry with a link but *no title* is not
skipped: it is published with the placeholder title "Без заголовка"
(`entry.get("title", "Без заголовка")`), contradicting the claim that an
entry missing a title is skipped. -/
theorem C8_counterexample :
    (rss_cycle id (fun _ => none) (fun _ => none) []
      [⟨"Src", true, none, [⟨⟨none, some "https://x/1", none, none, none, [],
        .absent, [], []⟩, .fail, true⟩]⟩]).published.map (fun c => c.title) =
      ["Без заголовка"] := by
  rfl

/-- **C8 (amended).** The RSS loop skips an entry (publishing nothing for
it, leaving all state unchanged, and continuing with the rest) only for a
missing *link*: when neither `link` nor `id` is a truthy string. A missing
*title* does not cause a skip: the entry is published with the placeholder
title "Без заголовка". -/
theorem C8_amended_missing_field_handling (getText : String → String)
    (findOg findImg : String → Option String) (ft : String) (acc : StepRes)
    (c : EntryCtx) (hnt : c.e.title = none) :
    (truthy (entryLink c.e) = false →
      processEntry getText findOg findImg ft acc c = acc) ∧
    entryTitle c.e = "Без заголовка" ∧
    (truthy (entryLink c.e) = true →
      acc.store.contains (entryKey c.e) = false → c.sendOk = true →
      (processEntry getText findOg findImg ft acc c).published =
        acc.published ++ [rssCard getText findOg findImg ft c] ∧
      (rssCard getText findOg findImg ft c).title = "Без заголовка") := by
  have htitle : entryTitle c.e = "Без заголовка" := by
    unfold entryTitle
    rw [hnt]
    decide
  refine ⟨?_, htitle, ?_⟩
  · intro hb
    exact pe_skip_blank getText findOg findImg ft acc c hb
  · intro hl hmem hsend
    refine ⟨?_, ?_⟩
    · rw [pe_publish getText findOg findImg ft acc c hl hmem hsend]
    · unfold rssCard
      dsimp only
      rw [htitle]
      decide

/-- Closed witness for C8 (amended): a title-less entry with a link is
published under the placeholder title; an entry with neither link nor id
is skipped. -/
theorem C8_witness :
    (truthy (entryLink (⟨⟨none, none, none, some "s", none, [], .absent, [], []⟩,
        .fail, true⟩ : EntryCtx).e) = false →
      processEntry id (fun _ => none) (fun _ => none) "Src" ⟨[], [], [], false⟩
        ⟨⟨none, none, none, some "s", none, [], .absent, [], []⟩, .fail, true⟩ =
        ⟨[], [], [], false⟩) ∧
    entryTitle (⟨⟨none, none, none, some "s", none, [], .absent, [], []⟩,
      .fail, true⟩ : EntryCtx).e = "Без заголовка" ∧
    (truthy (entryLink (⟨⟨none, none, none, some "s", none, [], .absent, [], []⟩,
        .fail, true⟩ : EntryCtx).e) = true →
      (⟨[], [], [], false⟩ : StepRes).store.contains
        (entryKey (⟨⟨none, none, none, some "s", none, [], .absent, [], []⟩,
          .fail, true⟩ : EntryCtx).e) = false →
      (⟨⟨none, none, none, some "s", none, [], .absent, [], []⟩,
        .fail, true⟩ : EntryCtx).sendOk = true →
      (processEntry id (fun _ => none) (fun _ => none) "Src" ⟨[], [], [], false⟩
        ⟨⟨none, none, none, some "s", none, [], .absent, [], []⟩, .fail, true⟩
        ).published =
        (⟨[], [], [], false⟩ : StepRes).published ++
          [rssCard id (fun _ => none) (fun _ => none) "Src"
            ⟨⟨none, none, none, some "s", none, [], .absent, [], []⟩, .fail, true⟩] ∧
      (rssCard id (fun _ => none) (fun _ => none) "Src"
        ⟨⟨none, none, none, some "s", none, [], .absent, [], []⟩, .fail, true⟩
        ).title = "Без заголовка") :=
  C8_amended_missing_field_handling id (fun _ => none) (fun _ => none) "Src"
    ⟨[], [], [], false⟩
    ⟨⟨none, none, none, some "s", none, [], .absent, [], []⟩, .fail, true⟩ rfl

/-- **C10.** When an entry has no truthy `link`, its `id` is used in its
place — it becomes the link component of the dedup key and the URL on the
published card — and the missing-link skip happens exactly when both
`link` and `id` are blank (absent or empty, i.e. Python-falsy). -/
theorem C10_id_fallback_for_link (getText : String → String)
    (findOg findImg : String → Option String) (ft : String) (acc : StepRes)
    (c : EntryCtx) (i t : String)
    (hnl : truthy c.e.link = false) (hid : c.e.id = some i) (hi : i ≠ "")
    (htl : c.e.title = some t) :
    entryLink c.e = some i ∧
    entryKey c.e = make_rss_key t i ∧
    (acc.store.contains (entryKey c.e) = false → c.sendOk = true →
      (processEntry getText findOg findImg ft acc c).published =
        acc.published ++ [rssCard getText findOg findImg ft c] ∧
      (rssCard getText findOg findImg ft c).url = some i ∧
      (processEntry getText findOg findImg ft acc c).events =
        acc.events ++ [.sent (make_rss_key t i), .add (make_rss_key t i)]) ∧
    (∀ e' : RSSEntry, truthy (entryLink e') = false ↔
      truthy e'.link = false ∧ truthy e'.id = false) := by
  have hel : entryLink c.e = some i := by
    unfold entryLink pyOrOpt
    rw [hnl, hid]
    rfl
  have hkey : entryKey c.e = make_rss_key t i := by
    unfold entryKey entryTitle
    rw [hel, htl]
    exact make_rss_key_strip t i
  have htr : truthy (entryLink c.e) = true := by
    rw [hel]
    simp [truthy, hi]
  refine ⟨hel, hkey, ?_, ?_⟩
  · intro hmem hsend
    refine ⟨?_, ?_, ?_⟩
    · rw [pe_publish getText findOg findImg ft acc c htr hmem hsend]
    · unfold rssCard
      dsimp only
      rw [hel]
      rfl
    · rw [pe_publish getText findOg findImg ft acc c htr hmem hsend, hkey]
  · intro e'
    unfold entryLink pyOrOpt
    rcases Bool.eq_false_or_eq_true (truthy e'.link) with hl' | hl' <;>
      simp [hl']

/-- Closed witness for C10: a concrete entry with no `link` and a truthy
`id` gets the id in its key and card URL and is published. -/
theorem C10_witness :
    entryLink (⟨⟨some "T u v", none, some "guid-1", none, none, [], .absent,
      [], []⟩, .fail, true⟩ : EntryCtx).e = some "guid-1" ∧
    entryKey (⟨⟨some "T u v", none, some "guid-1", none, none, [], .absent,
      [], []⟩, .fail, true⟩ : EntryCtx).e = make_rss_key "T u v" "guid-1" ∧
    ((⟨[], [], [], false⟩ : StepRes).store.contains
        (entryKey (⟨⟨some "T u v", none, some "guid-1", none, none, [], .absent,
          [], []⟩, .fail, true⟩ : EntryCtx).e) = false →
      (⟨⟨some "T u v", none, some "guid-1", none, none, [], .absent, [], []⟩,
        .fail, true⟩ : EntryCtx).sendOk = true →
      (processEntry id (fun _ => none) (fun _ => none) "Src" ⟨[], [], [], false⟩
        ⟨⟨some "T u v", none, some "guid-1", none, none, [], .absent, [], []⟩,
         .fail, true⟩).published =
        (⟨[], [], [], false⟩ : StepRes).published ++
          [rssCard id (fun _ => none) (fun _ => none) "Src"
            ⟨⟨some "T u v", none, some "guid-1", none, none, [], .absent, [], []⟩,
             .fail, true⟩] ∧
      (rssCard id (fun _ => none) (fun _ => none) "Src"
        ⟨⟨some "T u v", none, some "guid-1", none, none, [], .absent, [], []⟩,
         .fail, true⟩).url = some "guid-1" ∧
      (processEntry id (fun _ => none) (fun _ => none) "Src" ⟨[], [], [], false⟩
        ⟨⟨some "T u v", none, some "guid-1", none, none, [], .absent, [], []⟩,
         .fail, true⟩).events =
        (⟨[], [], [], false⟩ : StepRes).events ++
          [.sent (make_rss_key "T u v" "guid-1"),
           .add (make_rss_key "T u v" "guid-1")]) ∧
    (∀ e' : RSSEntry, truthy (entryLink e') = false ↔
      truthy e'.link = false ∧ truthy e'.id = false) :=
  C10_id_fallback_for_link id (fun _ => none) (fun _ => none) "Src"
    ⟨[], [], [], false⟩
    ⟨⟨some "T u v", none, some "guid-1", none, none, [], .absent, [], []⟩,
     .fail, true⟩ "guid-1" "T u v" rfl rfl (by decide) rfl

/-! ### C2: commit-after-send and flush discipline -/

/-- Is an event a store mutation? -/
def isAdd : Ev → Bool
  | .add _ => true
  | .sent _ => false
  | .sendFailed _ => false
  | .save => false

/-- Does a trace contain a store mutation? -/
def hasAdd (tr : List Ev) : Bool := tr.any isAdd

/-- The claim's flush discipline: after every store mutation the store is
flushed synchronously, i.e. every `add` is immediately followed by `save`. -/
def eachAddFlushed : List Ev → Bool
  | [] => true
  | .add _ :: .save :: rest => eachAddFlushed rest
  | .add _ :: _ => false
  | _ :: rest => eachAddFlushed rest

/-- Justified mutations: every `add k` in the trace is immediately
preceded by a successful `sent k` — the key is committed only right after
its item was delivered. -/
def addJustifiedAt (tr : List Ev) : Prop :=
  ∀ i k, tr[i]? = some (Ev.add k) →
    ∃ j, j + 1 = i ∧ tr[j]? = some (Ev.sent k)

theorem aj_nil : addJustifiedAt [] := by
  intro i k h
  simp at h

theorem aj_append_single (tr : List Ev) (e : Ev) (he : isAdd e = false)
    (h : addJustifiedAt tr) : addJustifiedAt (tr ++ [e]) := by
  intro i k hi
  by_cases hlt : i < tr.length
  · rw [List.getElem?_append_left hlt] at hi
    obtain ⟨j, hj1, hj2⟩ := h i k hi
    exact ⟨j, hj1, by rw [List.getElem?_append_left (by omega)]; exact hj2⟩
  · rw [List.getElem?_append_right (by omega)] at hi
    rcases hd : i - tr.length with _ | n
    · rw [hd] at hi
      simp only [List.getElem?_cons_zero, Option.some.injEq] at hi
      rw [hi] at he
      simp [isAdd] at he
    · rw [hd] at hi
      simp at hi

theorem aj_append_pair (tr : List Ev) (k : String) (h : addJustifiedAt tr) :
    addJustifiedAt (tr ++ [Ev.sent k, Ev.add k]) := by
  intro i k' hi
  by_cases hlt : i < tr.length
  · rw [List.getElem?_append_left hlt] at hi
    obtain ⟨j, hj1, hj2⟩ := h i k' hi
    exact ⟨j, hj1, by rw [List.getElem?_append_left (by omega)]; exact hj2⟩
  · have hge : tr.length ≤ i := by omega
    rw [List.getElem?_append_right hge] at hi
    rcases hd : i - tr.length with _ | n
    · rw [hd] at hi
      simp at hi
    · rcases n with _ | m
      · rw [hd] at hi
        simp only [List.getElem?_cons_succ, List.getElem?_cons_zero,
          Option.some.injEq, Ev.add.injEq] at hi
        refine ⟨tr.length, by omega, ?_⟩
        rw [List.getElem?_append_right (le_refl tr.length)]
        simp [hi]
      · rw [hd] at hi
        simp at hi

theorem aj_processEntry (getText : String → String)
    (findOg findImg : String → Option String) (ft : String) (acc : StepRes)
    (c : EntryCtx) (h : addJustifiedAt acc.events) :
    addJustifiedAt (processEntry getText findOg findImg ft acc c).events := by
  unfold processEntry
  split_ifs with h1 h2 h3
  · exact h
  · exact h
  · exact aj_append_pair acc.events _ h
  · exact aj_append_single acc.events _ rfl h

theorem aj_foldl_entries (getText : String → String)
    (findOg findImg : String → Option String) (ft : String) :
    ∀ (l : List EntryCtx) (acc : StepRes), addJustifiedAt acc.events →
      addJustifiedAt
        ((List.foldl (processEntry getText findOg findImg ft) acc l).events) := by
  intro l
  induction l with
  | nil => exact fun acc h => h
  | cons a rest ih =>
    exact fun acc h => ih _ (aj_processEntry getText findOg findImg ft acc a h)

theorem aj_processFeed (getText : String → String)
    (findOg findImg : String → Option String) (acc : StepRes) (f : Feed)
    (h : addJustifiedAt acc.events) :
    addJustifiedAt (processFeed getText findOg findImg acc f).events := by
  unfold processFeed
  split_ifs with hp
  · exact aj_foldl_entries getText findOg findImg _ _ acc h
  · exact h

theorem aj_foldl_feeds (getText : String → String)
    (findOg findImg : String → Option String) :
    ∀ (fs : List Feed) (acc : StepRes), addJustifiedAt acc.events →
      addJustifiedAt
        ((List.foldl (processFeed getText findOg findImg) acc fs).events) := by
  intro fs
  induction fs with
  | nil => exact fun acc h => h
  | cons f rest ih =>
    exact fun acc h => ih _ (aj_processFeed getText findOg findImg acc f h)

theorem aj_rss_cycle (getText : String → String)
    (findOg findImg : String → Option String) (store : List String)
    (feeds : List Feed) :
    addJustifiedAt (rss_cycle getText findOg findImg store feeds).events := by
  have hr : addJustifiedAt
      (rssCycleCore getText findOg findImg store feeds).events :=
    aj_foldl_feeds getText findOg findImg feeds ⟨[], store, [], false⟩ aj_nil
  unfold rss_cycle
  split_ifs with hn
  · exact aj_append_single _ _ rfl hr
  · exact hr

theorem na_processEntry (getText : String → String)
    (findOg findImg : String → Option String) (ft : String) (acc : StepRes)
    (c : EntryCtx) (h : hasAdd acc.events = true → acc.newAdded = true) :
    hasAdd (processEntry getText findOg findImg ft acc c).events = true →
      (processEntry getText findOg findImg ft acc c).newAdded = true := by
  unfold processEntry
  split_ifs with h1 h2 h3
  · exact h
  · exact h
  · intro _
    rfl
  · intro hh
    apply h
    unfold hasAdd at hh ⊢
    simpa [isAdd] using hh

theorem na_foldl_entries (getText : String → String)
    (findOg findImg : String → Option String) (ft : String) :
    ∀ (l : List EntryCtx) (acc : StepRes),
      (hasAdd acc.events = true → acc.newAdded = true) →
      hasAdd ((List.foldl (processEntry getText findOg findImg ft) acc l).events)
          = true →
        (List.foldl (processEntry getText findOg findImg ft) acc l).newAdded
          = true := by
  intro l
  induction l with
  | nil => exact fun acc h => h
  | cons a rest ih =>
    exact fun acc h => ih _ (na_processEntry getText findOg findImg ft acc a h)

theorem na_processFeed (getText : String → String)
    (findOg findImg : String → Option String) (acc : StepRes) (f : Feed)
    (h : hasAdd acc.events = true → acc.newAdded = true) :
    hasAdd (processFeed getText findOg findImg acc f).events = true →
      (processFeed getText findOg findImg acc f).newAdded = true := by
  unfold processFeed
  split_ifs with hp
  · exact na_foldl_entries getText findOg findImg _ _ acc h
  · exact h

theorem na_foldl_feeds (getText : String → String)
    (findOg findImg : String → Option String) :
    ∀ (fs : List Feed) (acc : StepRes),
      (hasAdd acc.events = true → acc.newAdded = true) →
      hasAdd ((List.foldl (processFeed getText findOg findImg) acc fs).events)
          = true →
        (List.foldl (processFeed getText findOg findImg) acc fs).newAdded
          = true := by
  intro fs
  induction fs with
  | nil => exact fun acc h => h
  | cons f rest ih =>
    exact fun acc h => ih _ (na_processFeed getText findOg findImg acc f h)

/-- In the RSS cycle the flush is deferred: when any mutation happened
during the cycle, the single `save` is the *last* event of the cycle. -/
theorem rss_cycle_flush_at_end (getText : String → String)
    (findOg findImg : String → Option String) (store : List String)
    (feeds : List Feed) :
    hasAdd (rss_cycle getText findOg findImg store feeds).events = true →
      (rss_cycle getText findOg findImg store feeds).events.getLast? =
        some Ev.save := by
  have hinv : hasAdd (rssCycleCore getText findOg findImg store feeds).events
      = true → (rssCycleCore getText findOg findImg store feeds).newAdded
      = true :=
    na_foldl_feeds getText findOg findImg feeds ⟨[], store, [], false⟩
      (by intro hh; simp [hasAdd] at hh)
  unfold rss_cycle
  split_ifs with hn
  · intro _
    exact List.getLast?_concat _
  · intro hh
    exact absurd (hinv hh) hn

theorem chat_events_aj (sha : String → String) (store : List String)
    (c : ChatCtx) : addJustifiedAt (on_message_news sha store c).events := by
  unfold on_message_news
  split_ifs <;>
    first
      | exact aj_nil
      | exact aj_append_single [] _ rfl aj_nil
      | exact aj_append_single ([] ++ [Ev.sent (chatKey sha c),
          Ev.add (chatKey sha c)]) Ev.save rfl
          (aj_append_pair [] (chatKey sha c) aj_nil)

/-- When the chat handler publishes, its events are exactly send, add,
save: the mutation happens right after the successful send and the flush
right after the mutation. -/
theorem chat_events_published (sha : String → String) (store : List String)
    (c : ChatCtx) (card : Card)
    (h : (on_message_news sha store c).published = some card) :
    (on_message_news sha store c).events =
      [.sent (chatKey sha c), .add (chatKey sha c), .save] := by
  obtain ⟨h1, h2, h3, h4, h5, h6, h7, -⟩ :=
    chat_published_conditions sha store c card h
  unfold on_message_news
  rw [if_neg h1, if_neg (by simp [h2]), if_neg (by simp [h3]),
      if_neg (by simp [h4]), if_neg (by rw [h5]; simp), if_pos h6, if_pos h7]

theorem pe_store_unchanged_on_fail (getText : String → String)
    (findOg findImg : String → Option String) (ft : String) (acc : StepRes)
    (c : EntryCtx) (h : c.sendOk = false) :
    (processEntry getText findOg findImg ft acc c).store = acc.store := by
  unfold processEntry
  split_ifs with h1 h2 h3
  · rfl
  · rfl
  · rw [h] at h3
    cases h3
  · rfl

/-- **C2 (amended).** In every trace of the pipeline a dedup key is added
only immediately after a successful send of that item (never before, and
never on a failed delivery, whose key is left out of the store so the item
is retried). The flush discipline differs between the two paths: the chat
handler flushes synchronously right after its single mutation, while the
RSS loop defers the flush to a single `save_posted` at the *end* of any
cycle that performed a mutation — not after every mutation. -/
theorem C2_amended_commit_after_send (getText : String → String)
    (findOg findImg : String → Option String) (sha : String → String)
    (store : List String) (feeds : List Feed) (cc : ChatCtx) (card : Card)
    (ft : String) (acc : StepRes) (ec : EntryCtx) :
    addJustifiedAt (rss_cycle getText findOg findImg store feeds).events ∧
    addJustifiedAt (on_message_news sha store cc).events ∧
    (hasAdd (rss_cycle getText findOg findImg store feeds).events = true →
      (rss_cycle getText findOg findImg store feeds).events.getLast? =
        some Ev.save) ∧
    ((on_message_news sha store cc).published = some card →
      (on_message_news sha store cc).events =
        [.sent (chatKey sha cc), .add (chatKey sha cc), .save]) ∧
    (ec.sendOk = false →
      (processEntry getText findOg findImg ft acc ec).store = acc.store) :=
  ⟨aj_rss_cycle getText findOg findImg store feeds,
   chat_events_aj sha store cc,
   rss_cycle_flush_at_end getText findOg findImg store feeds,
   fun h => chat_events_published sha store cc card h,
   fun h => pe_store_unchanged_on_fail getText findOg findImg ft acc ec h⟩

set_option maxRecDepth 8192 in
/-- **C2 counterexample.** A single RSS cycle that publishes two fresh
entries performs two store mutations but only one flush, at the end of
the cycle: the trace is send, add, send, add, save, which violates
"flushed synchronously after every successful mutation" (the chat trace
send, add, save satisfies it). -/
theorem C2_counterexample :
    eachAddFlushed (rss_cycle id (fun _ => none) (fun _ => none) []
      [⟨"Src", true, none,
        [⟨⟨some "A b", some "https://x/1", none, none, none, [], .absent,
          [], []⟩, .fail, true⟩,
         ⟨⟨some "C d", some "https://x/2", none, none, none, [], .absent,
          [], []⟩, .fail, true⟩]⟩]).events = false ∧
    (rss_cycle id (fun _ => none) (fun _ => none) []
      [⟨"Src", true, none,
        [⟨⟨some "A b", some "https://x/1", none, none, none, [], .absent,
          [], []⟩, .fail, true⟩,
         ⟨⟨some "C d", some "https://x/2", none, none, none, [], .absent,
          [], []⟩, .fail, true⟩]⟩]).events =
      [.sent "RSS|a b|https://x/1", .add "RSS|a b|https://x/1",
       .sent "RSS|c d|https://x/2", .add "RSS|c d|https://x/2", .save] ∧
    eachAddFlushed [.sent "k", .add "k", .save] = true := by
  exact ⟨rfl, rfl, rfl⟩

set_option maxRecDepth 8192 in
/-- Closed witness for C2 (amended): the instantiated arms on a concrete
publishing cycle, a concrete publishing chat message, and a concrete
failed delivery. -/
theorem C2_witness :
    addJustifiedAt (rss_cycle id (fun _ => none) (fun _ => none) []
      [⟨"Src", true, none, [⟨⟨some "A b", some "https://x/1", none, none,
        none, [], .absent, [], []⟩, .fail, true⟩]⟩]).events ∧
    (rss_cycle id (fun _ => none) (fun _ => none) []
      [⟨"Src", true, none, [⟨⟨some "A b", some "https://x/1", none, none,
        none, [], .absent, [], []⟩, .fail, true⟩]⟩]).events.getLast? =
      some Ev.save ∧
    (on_message_news (fun _ => "H") []
      ⟨"Alpha beta gamma", .response 200 (.parsed
        (some [⟨some ⟨some "Breaking news today"⟩⟩])), none, true, true⟩
      ).events =
      [.sent (chatKey (fun _ => "H")
        ⟨"Alpha beta gamma", .response 200 (.parsed
          (some [⟨some ⟨some "Breaking news today"⟩⟩])), none, true, true⟩),
       .add (chatKey (fun _ => "H")
        ⟨"Alpha beta gamma", .response 200 (.parsed
          (some [⟨some ⟨some "Breaking news today"⟩⟩])), none, true, true⟩),
       .save] ∧
    (processEntry id (fun _ => none) (fun _ => none) "Src" ⟨[], [], [], false⟩
      ⟨⟨some "A b", some "https://x/1", none, none, none, [], .absent, [], []⟩,
       .fail, false⟩).store = (⟨[], [], [], false⟩ : StepRes).store := by
  have h := C2_amended_commit_after_send id (fun _ => none) (fun _ => none)
    (fun _ => "H") []
    [⟨"Src", true, none, [⟨⟨some "A b", some "https://x/1", none, none,
      none, [], .absent, [], []⟩, .fail, true⟩]⟩]
    ⟨"Alpha beta gamma", .response 200 (.parsed
      (some [⟨some ⟨some "Breaking news today"⟩⟩])), none, true, true⟩
    { title := "Breaking news today", body := "Breaking news today"
    , url := none, image := none, author := "" }
    "Src" ⟨[], [], [], false⟩
    ⟨⟨some "A b", some "https://x/1", none, none, none, [], .absent, [], []⟩,
     .fail, false⟩
  exact ⟨h.1, h.2.2.1 (by rfl), h.2.2.2.1 (by rfl), h.2.2.2.2 rfl⟩

end Bot
